import Mathlib

/-!
Verification of the browser-side conversation / plan-selection controller of the
Travel-AI-agent repository.

The development shallowly embeds the DOM-manipulating handlers of
`src/static/js/chat.js` (the primary controller) and of the variant script
`src/unnamed/part_001` (which holds `formatPlanContent`, the scheduling modal
with the authentication check at confirm time, `refinePlan`, `confirmPlan`,
`updateEventsPreview` and the OAuth-return `window` load handler).

DOM nodes become values of inductive types, the message list becomes a Lean
list, `sessionStorage` / `window.location` / issued POST requests become fields
of explicit state records, and each event handler becomes a state-transition
function parameterised by the network outcome it awaits (`none` standing for a
thrown `fetch` / `response.json()` rejection).
-/

namespace TravelAgent

/-- One alternative of a chat response body (`optionData` in the scripts):
its textual `content` and optional `type` classifier. -/
structure Alt where
  content : String
  type : Option String
  deriving Repr, DecidableEq

/-- The initial label of a select button
(`<i data-feather="check"></i> Select this option`, chat.js line 177). -/
def selectInitLabel : String := "<i data-feather=\"check\"></i> Select this option"

/-- The loading label placed on the select button while the selection request
is in flight (chat.js line 228). -/
def selectLoadingLabel : String := "<i data-feather=\"loader\"></i> Selecting..."

/-- The label of a successfully selected option (chat.js line 260). -/
def selectedLabel : String := "<i data-feather=\"check-circle\"></i> Selected"

/-- A rendered `.response-option` element: its source content, whether a
calendar button was attached, the state of its select button, and its
visibility (`style.display` not set to `none`). -/
structure OptionElem where
  content : String
  hasCalendarButton : Bool
  selectDisabled : Bool
  selectLabel : String
  visible : Bool
  deriving Repr, DecidableEq

/-- `createResponseOption` of chat.js (lines 162-305): builds one selectable
option element for an alternative; a calendar button is attached exactly when
`optionData.type === 'itinerary'`; the element is created visible with an
enabled select button carrying the initial label. -/
def createResponseOption (optionData : Alt) : OptionElem :=
  { content := optionData.content
    hasCalendarButton := decide (optionData.type = some "itinerary")
    selectDisabled := false
    selectLabel := selectInitLabel
    visible := true }

/-- The content argument of `addMessage`: either a plain string or a response
object whose `alternatives` field may be absent (`undefined`). -/
inductive Content where
  | str (s : String)
  | obj (alternatives : Option (List Alt))
  deriving Repr, DecidableEq

/-- The header inserted above the rendered alternatives (chat.js line 318). -/
def recommendationsHeader : String := "Here are some tailored recommendations:"

/-- A message element appended to `#chatMessages`. -/
inductive MessageDiv where
  | text (s : String) (isUser : Bool) (isError : Bool)
  | options (header : String) (opts : List OptionElem) (isUser : Bool) (isError : Bool)
  | unexpected (isUser : Bool) (isError : Bool)
  deriving Repr, DecidableEq

/-- The message element built by `addMessage` of chat.js (lines 307-334) for a
given content: a string becomes a text node; an object with an `alternatives`
field becomes the response-options block holding one `createResponseOption`
result per alternative, in array order; any other object renders the
unexpected-format error text. -/
def mkMessageDiv : Content → Bool → Bool → MessageDiv
  | .str s, u, e => .text s u e
  | .obj (some alts), u, e => .options recommendationsHeader (alts.map createResponseOption) u e
  | .obj none, u, e => .unexpected u e

/-- `addMessage` of chat.js: appends the built message element to the message
list (`chatMessages.appendChild`). -/
def addMessage (content : Content) (isUser isError : Bool)
    (chatMessages : List MessageDiv) : List MessageDiv :=
  chatMessages ++ [mkMessageDiv content isUser isError]

/-- The number of selectable option elements of a message element. -/
def MessageDiv.optionCount : MessageDiv → Nat
  | .options _ opts _ _ => opts.length
  | _ => 0

/-- The inline error text appended when a selection fails (chat.js lines
292 and 299). -/
def selectErrorMessage : String := "Error processing your selection. Please try again."

/-- Replace the element at position `i` of a list by its image under `f`
(models mutating the DOM node the handler closure holds). -/
def modifyAt {α : Type} (i : Nat) (f : α → α) : List α → List α
  | [] => []
  | x :: xs =>
    match i with
    | 0 => f x :: xs
    | i + 1 => x :: modifyAt i f xs

/-- Set `style.display = 'none'` on an option element. -/
def OptionElem.hide (o : OptionElem) : OptionElem := { o with visible := false }

/-- Write the select button state (disabled flag and innerHTML) of an option. -/
def setSelectBtn (d : Bool) (l : String) (o : OptionElem) : OptionElem :=
  { o with selectDisabled := d, selectLabel := l }

/-- The loop of chat.js lines 249-254: every `.response-option` element other
than the clicked one (here: other than position `i`) gets `display: none`. -/
def hideOtherOptions : Nat → List OptionElem → List OptionElem
  | _, [] => []
  | 0, o :: os => o :: os.map OptionElem.hide
  | i + 1, o :: os => o.hide :: hideOtherOptions i os

/-- The network outcome awaited by the select click handler: the fetch or
`response.json()` call threw, or a parsed body with its `status` and optional
`preference_analysis` fields. -/
inductive SelectOutcome where
  | thrown
  | data (status : String) (preference_analysis : Option String)
  deriving Repr, DecidableEq

/-- Observable actions of the select click handler, in program order. -/
inductive SelectAct where
  | disableSelect
  | setSelectLabel (s : String)
  | postSelect (user_id : String) (original_query : String) (selected_response : String)
  | hideOthers
  | appendBanner
  | appendAnalysis (s : String)
  | appendErrorMsg (s : String)
  | enableSelect
  deriving Repr, DecidableEq

/-- The select click handler of chat.js (lines 222-301), for the option
`optionData` rendered at position `i` of the current `.response-option`
list `opts`.  Returns the ordered action trace and the updated option list.
The button is disabled and given the loading label, then the selection POST
is issued; on a success body the other options are hidden and the clicked
button is locked with the selected label (with the confirmation banner and
optional preference analysis appended); on a non-success body or a thrown
error the button is re-enabled with its original label and the inline
selection error is appended. -/
def selectClick (userId queryText : String) (optionData : Alt) (i : Nat)
    (opts : List OptionElem) (outcome : SelectOutcome) :
    List SelectAct × List OptionElem :=
  let opts1 := modifyAt i (setSelectBtn true selectLoadingLabel) opts
  let issued : List SelectAct :=
    [.disableSelect, .setSelectLabel selectLoadingLabel,
     .postSelect userId queryText optionData.content]
  match outcome with
  | .thrown =>
      (issued ++ [.enableSelect, .setSelectLabel selectInitLabel,
        .appendErrorMsg selectErrorMessage],
       modifyAt i (setSelectBtn false selectInitLabel) opts1)
  | .data status pa =>
      if status = "success" then
        let opts2 := hideOtherOptions i opts1
        let opts3 := modifyAt i (setSelectBtn true selectedLabel) opts2
        (issued ++ [.hideOthers, .disableSelect, .setSelectLabel selectedLabel, .appendBanner]
          ++ (match pa with | some s => [.appendAnalysis s] | none => []),
         opts3)
      else
        (issued ++ [.enableSelect, .setSelectLabel selectInitLabel,
          .appendErrorMsg selectErrorMessage],
         modifyAt i (setSelectBtn false selectInitLabel) opts1)

/-- The number of visible option elements. -/
def countVisible (opts : List OptionElem) : Nat := opts.countP (·.visible)

/-- Visibility of the option stored at a position, if any. -/
def visibleAt (opts : List OptionElem) (j : Nat) : Option Bool :=
  opts[j]?.map OptionElem.visible

/-- Select-button state (disabled flag, label) of the option at a position. -/
def selectBtnStateAt (opts : List OptionElem) (j : Nat) : Option (Bool × String) :=
  opts[j]?.map (fun o => (o.selectDisabled, o.selectLabel))

/-- Models `String.prototype.trim` as called on `messageInput.value`:
strip leading and trailing whitespace. -/
def trimValue (s : String) : String :=
  ⟨((s.data.dropWhile Char.isWhitespace).reverse.dropWhile Char.isWhitespace).reverse⟩

/-- A chat response body as consumed by the submit handler: its `status`,
optional `alternatives` array, and optional `message`. -/
structure ChatData where
  status : String
  alternatives : Option (List Alt)
  message : Option String
  deriving Repr, DecidableEq

/-- A node of the `#chatMessages` container: a message element or a loading
indicator (identified by a creation counter standing for node identity). -/
inductive DomNode where
  | msg (m : MessageDiv)
  | loading (id : Nat)
  deriving Repr, DecidableEq

/-- A POST body sent to `/api/chat`. -/
structure ChatPost where
  message : String
  user_id : String
  deriving Repr, DecidableEq

/-- A POST body sent to `/api/itinerary/save`. -/
structure SavePost where
  user_id : String
  original_query : String
  selected_itinerary : String
  user_changes : String
  deriving Repr, DecidableEq

/-- The UI state touched by the chat submit, refine and confirm handlers:
the message container, the input field, the submit cooldown, the issued
POST requests, and the scheduling modal (`some itinerary` when open). -/
structure UIState where
  nodes : List DomNode
  nextId : Nat
  inputValue : String
  cooldown : Option Nat
  chatPosts : List ChatPost
  savePosts : List SavePost
  modal : Option String
  deriving Repr, DecidableEq

/-- `addMessage` acting on the container of a `UIState`. -/
def appendMsg (c : Content) (isUser isError : Bool) (st : UIState) : UIState :=
  { st with nodes := st.nodes ++ [.msg (mkMessageDiv c isUser isError)] }

/-- `showLoading` (chat.js lines 336-343): append a fresh loading indicator
and hand it back (second component) so the handler can later remove it. -/
def showLoading (st : UIState) : UIState × Nat :=
  ({ st with nodes := st.nodes ++ [.loading st.nextId], nextId := st.nextId + 1 },
   st.nextId)

/-- `loadingMessage.remove()`: detach that node (a no-op if already removed,
as `Element.remove` is). -/
def removeNode (id : Nat) (st : UIState) : UIState :=
  { st with nodes := st.nodes.filter (fun n => n ≠ DomNode.loading id) }

/-- The distinguished rate-limit message (chat.js line 366). -/
def rateLimitMessage : String :=
  "The service is currently experiencing high traffic. Please wait 30 seconds before trying again."

/-- The generic error message (chat.js line 369). -/
def genericErrorMessage : String :=
  "Sorry, there was an error processing your request. Please try again."

/-- `disableSubmit(seconds)` (chat.js lines 345-360): lock the submit button
for the given countdown. -/
def disableSubmit (seconds : Nat) (st : UIState) : UIState :=
  { st with cooldown := some seconds }

/-- `handleError` of chat.js (lines 362-371): remove the loading indicator;
when `error.status === 429` (here `errStatus = some 429`; a thrown
network/parse error carries no `status`, here `none`) append the
distinguished rate-limit message and lock the submit button for 30 seconds,
otherwise append the generic error text. -/
def handleError (errStatus : Option Nat) (loadingId : Nat) (st : UIState) : UIState :=
  let st1 := removeNode loadingId st
  if errStatus = some 429 then
    disableSubmit 30 (appendMsg (.str rateLimitMessage) false true st1)
  else
    appendMsg (.str genericErrorMessage) false true st1

/-- Outcome of the `/api/chat` fetch awaited by the submit handler: the fetch
itself rejected (`netError`), or an HTTP response whose body either failed to
parse as JSON (`response.json()` threw, `body = none`) or parsed to a
`ChatData`. -/
inductive FetchResult where
  | netError
  | resp (httpStatus : Nat) (body : Option ChatData)
  deriving Repr, DecidableEq

/-- The chat form submit handler of chat.js (lines 373-416): trim the input
and return unchanged when empty; otherwise append the user message, clear the
input, show a loading indicator, POST to `/api/chat`, and dispatch on the
outcome: a success body is rendered via `addMessage(data)` followed by the
5-second courtesy cooldown; a non-success body goes to `handleError` with the
HTTP status; a thrown fetch/parse error goes to `handleError` with no
status. -/
def chatFormSubmit (userId : String) (fr : FetchResult) (st : UIState) : UIState :=
  let message := trimValue st.inputValue
  if message = "" then st
  else
    let st1 := { appendMsg (.str message) true false st with inputValue := "" }
    let st2p := showLoading st1
    let st2 := st2p.1
    let lid := st2p.2
    let st3 := { st2 with chatPosts := st2.chatPosts ++ [⟨message, userId⟩] }
    match fr with
    | .netError => handleError none lid st3
    | .resp httpStatus body =>
      match body with
      | none => handleError none lid st3
      | some data =>
        let st4 := removeNode lid st3
        if data.status = "success" then
          disableSubmit 5 (appendMsg (.obj data.alternatives) false false st4)
        else
          handleError (some httpStatus) lid st4

/-- Outcome of a fetch whose surrounding try-block throws on rejection,
`!response.ok`, a non-JSON content type, or a JSON parse failure: either a
throw (with the error's message) or a parsed body. -/
inductive JsonOutcome where
  | thrown (errMessage : String)
  | data (d : ChatData)
  deriving Repr, DecidableEq

/-- `refinePlan` of part_001 (lines 154-192): append the synthesized
revision request as a user message, show a loading indicator, POST to
`/api/chat`, then render the success body, or append the refine error text
(removing the indicator on every path). -/
def refinePlan (userId currentPlan userChanges : String) (outcome : JsonOutcome)
    (st : UIState) : UIState :=
  let refinementMessage :=
    "Please revise this plan with the following changes:\n" ++ userChanges
      ++ "\n\nCurrent plan:\n" ++ currentPlan
  let st1 := appendMsg (.str refinementMessage) true false st
  let st2p := showLoading st1
  let st2 := st2p.1
  let lid := st2p.2
  let st3 := { st2 with chatPosts := st2.chatPosts ++ [⟨refinementMessage, userId⟩] }
  match outcome with
  | .thrown m =>
    appendMsg (.str ("Error refining plan: " ++ m)) false true (removeNode lid st3)
  | .data d =>
    let st4 := removeNode lid st3
    if d.status = "success" then appendMsg (.obj d.alternatives) false false st4
    else
      appendMsg (.str ("Error refining plan: " ++ d.message.getD "undefined")) false true st4

/-- The text of the last `.message.user` element of the container, if any. -/
def lastUserText (nodes : List DomNode) : Option String :=
  nodes.reverse.findSome? (fun n =>
    match n with
    | .msg (.text s true _) => some s
    | _ => none)

/-- `confirmPlan` of part_001 (lines 197-233): show a loading indicator,
POST the itinerary to `/api/itinerary/save` with the last user query, then on
success announce the save and open the scheduling modal, otherwise append the
save error text (removing the indicator on every path). -/
def confirmPlan (userId finalItinerary userChanges : String) (outcome : JsonOutcome)
    (st : UIState) : UIState :=
  let st1p := showLoading st
  let st1 := st1p.1
  let lid := st1p.2
  let lastUserQuery := (lastUserText st1.nodes).getD "(No query found)"
  let st2 := { st1 with
    savePosts := st1.savePosts ++ [⟨userId, lastUserQuery, finalItinerary, userChanges⟩] }
  match outcome with
  | .thrown m =>
    appendMsg (.str ("Error saving itinerary: " ++ m)) false true (removeNode lid st2)
  | .data d =>
    let st3 := removeNode lid st2
    if d.status = "success" then
      { appendMsg (.str "Plan saved. Now pick a start date to preview events.")
          false false st3 with modal := some finalItinerary }
    else
      appendMsg (.str ("Failed to save itinerary: " ++ d.message.getD "undefined"))
        false true st3

/-- Whether a container node is a loading indicator. -/
def DomNode.isLoading : DomNode → Bool
  | .loading _ => true
  | _ => false

/-- The number of loading indicators in the container. -/
def loadingCount (st : UIState) : Nat := st.nodes.countP (·.isLoading)

/-- One event of a `/api/calendar/preview` success body (part_001 renders
`description`, `day_number`, `day_title`; chat.js renders `summary`; both
render `start_time`, `duration`, `location`). -/
structure PreviewEvent where
  day_number : Int
  day_title : String
  description : String
  start_time : String
  duration : String
  location : String
  summary : String
  deriving Repr, DecidableEq

/-- A fragment of the rendered events list: a day header or an event card. -/
inductive PreviewItem where
  | dayHeader (day_number : Int) (day_title : String)
  | eventCard (e : PreviewEvent)
  deriving Repr, DecidableEq

/-- Outcome of the `/api/calendar/preview` fetch: thrown, or a body with a
`status` and a `preview` array. -/
inductive PreviewOutcome where
  | thrown (errMessage : String)
  | data (status : String) (preview : List PreviewEvent)
  deriving Repr, DecidableEq

/-- Loop body of `updateEventsPreview` of part_001 (lines 367-395): the
accumulator is (`currentDay`, fragments already flushed to the list, pending
day fragment `dayHtml`); a day-number change flushes the pending fragment and
opens a new day header before the event's card. -/
def renderPreviewStep (acc : Int × List PreviewItem × List PreviewItem)
    (evt : PreviewEvent) : Int × List PreviewItem × List PreviewItem :=
  if evt.day_number ≠ acc.1 then
    (evt.day_number, acc.2.1 ++ acc.2.2,
     [PreviewItem.dayHeader evt.day_number evt.day_title, PreviewItem.eventCard evt])
  else
    (acc.1, acc.2.1, acc.2.2 ++ [PreviewItem.eventCard evt])

/-- The full list built by `updateEventsPreview` of part_001 from a success
body: `currentDay` starts at `-1` and the last pending fragment is flushed
after the loop. -/
def renderPreview (preview : List PreviewEvent) : List PreviewItem :=
  let r := preview.foldl renderPreviewStep (-1, [], [])
  r.2.1 ++ r.2.2

/-- `updateEventsPreview` of part_001 (lines 352-409) as a transformer of the
`.events-list` contents: a success body first clears the list
(`eventsList.innerHTML = ''`) and renders the new preview; a non-success body
or a thrown error only logs to the console, leaving the list unchanged. -/
def updateEventsPreview (outcome : PreviewOutcome)
    (eventsList : List PreviewItem) : List PreviewItem :=
  match outcome with
  | .thrown _ => eventsList
  | .data status preview =>
    if status = "success" then renderPreview preview else eventsList

/-- An event card of the chat.js `startDate` change handler (lines 91-103). -/
structure PreviewCard where
  summary : String
  start_time : String
  duration : String
  location : String
  deriving Repr, DecidableEq

/-- The card rendered for one preview event by the chat.js handler. -/
def mkPreviewCard (e : PreviewEvent) : PreviewCard :=
  ⟨e.summary, e.start_time, e.duration, e.location⟩

/-- The `startDate` change handler of chat.js (lines 73-109) as a transformer
of the `.events-list` contents: a success body overwrites `innerHTML` with the
joined cards, one per preview event; otherwise the list is unchanged. -/
def startDateChangeHandler (outcome : PreviewOutcome)
    (eventsList : List PreviewCard) : List PreviewCard :=
  match outcome with
  | .thrown _ => eventsList
  | .data status preview =>
    if status = "success" then preview.map mkPreviewCard else eventsList

/-- Whether a rendered fragment is derived from an event of the given
preview array. -/
def itemFromPreview (preview : List PreviewEvent) : PreviewItem → Prop
  | .dayHeader n t => ∃ e ∈ preview, e.day_number = n ∧ e.day_title = t
  | .eventCard e => e ∈ preview

/-- The payload stored in `sessionStorage` under `pendingCalendarItinerary`
before the OAuth redirect. -/
structure Pending where
  itinerary : String
  startDate : String
  deriving Repr, DecidableEq

/-- A POST body sent to `/api/calendar/event`. -/
structure EventPost where
  itinerary_content : String
  start_date : String
  deriving Repr, DecidableEq

/-- The idle label of the schedule-confirm button. -/
def addToCalendarLabel : String := "<i data-feather=\"calendar\"></i> Add to Calendar"

/-- The in-flight label of the schedule-confirm button (part_001 line 297). -/
def addingLabel : String := "<i data-feather=\"loader\"></i> Adding..."

/-- State touched by the scheduling-modal confirm handler and the OAuth-return
load handler: the message container, the transient `sessionStorage` slot, the
navigation target assigned to `window.location.href` (if any), the POSTs
issued to `/api/calendar/event`, the confirm button, and whether the modal is
open. -/
structure CalState where
  nodes : List DomNode
  sessionPending : Option Pending
  redirect : Option String
  eventPosts : List EventPost
  confirmDisabled : Bool
  confirmLabel : String
  modalOpen : Bool
  deriving Repr, DecidableEq

/-- `addMessage` with a string content acting on a `CalState` container. -/
def calAddMsg (s : String) (isError : Bool) (st : CalState) : CalState :=
  { st with nodes := st.nodes ++ [.msg (.text s false isError)] }

/-- Outcome of the `/api/calendar/status` fetch: thrown, or a body with its
`authenticated` flag (a missing field is falsy, covered by `data false`). -/
inductive AuthOutcome where
  | thrown (errMessage : String)
  | data (authenticated : Bool)
  deriving Repr, DecidableEq

/-- Outcome of the `/api/calendar/event` fetch: thrown, or a body with its
`status` and optional `message`. -/
inductive EventOutcome where
  | thrown (errMessage : String)
  | data (status : String) (message : Option String)
  deriving Repr, DecidableEq

/-- The `confirmSchedule` click handler of the scheduling modal of part_001
(lines 289-341; identical logic at part_004 lines 208-263): an empty start
date only alerts; otherwise the button is disabled with the in-flight label
and `/api/calendar/status` is awaited.  When not authenticated, the pending
{itinerary, startDate} payload is written to `sessionStorage` and the browser
is sent to `/api/calendar/auth`, returning before any event POST.  When
authenticated, the event POST is issued: success reports and closes the
modal; failure or a thrown error reports and re-enables the button. -/
def confirmScheduleClick (finalItinerary startDate : String)
    (auth : AuthOutcome) (ev : EventOutcome) (st : CalState) : CalState :=
  if startDate = "" then st
  else
    let st1 := { st with confirmDisabled := true, confirmLabel := addingLabel }
    match auth with
    | .thrown m =>
      { calAddMsg ("Error scheduling itinerary: " ++ m) true st1 with
        confirmDisabled := false, confirmLabel := addToCalendarLabel }
    | .data authenticated =>
      if !authenticated then
        { st1 with
          sessionPending := some ⟨finalItinerary, startDate⟩,
          redirect := some "/api/calendar/auth" }
      else
        let st2 := { st1 with eventPosts := st1.eventPosts ++ [⟨finalItinerary, startDate⟩] }
        match ev with
        | .thrown m =>
          { calAddMsg ("Error scheduling itinerary: " ++ m) true st2 with
            confirmDisabled := false, confirmLabel := addToCalendarLabel }
        | .data status msg =>
          if status = "success" then
            { calAddMsg "Successfully added itinerary to your Google Calendar!" false st2 with
              modalOpen := false }
          else
            { calAddMsg ("Failed to add itinerary to calendar: " ++ msg.getD "undefined")
                true st2 with
              confirmDisabled := false, confirmLabel := addToCalendarLabel }

/-- The `window` load handler of part_001 (lines 458-487): when a pending
payload exists in `sessionStorage` it is removed immediately — before the
`/api/calendar/status` fetch resolves, so before any outcome is known.  If
the status then reports authenticated, a single `/api/calendar/event` POST is
issued and its success or failure is reported; nothing is ever written back
to the `sessionStorage` slot.  (The part_004 load handler is different: it
delegates to `handleScheduleConfirmation`, embedded separately below as
`windowLoadHandlerP4`.) -/
def windowLoadHandler (auth : AuthOutcome) (ev : EventOutcome) (st : CalState) : CalState :=
  match st.sessionPending with
  | none => st
  | some p =>
    let st1 := { st with sessionPending := none }
    match auth with
    | .thrown _ => st1
    | .data authenticated =>
      if authenticated then
        let st2 := { st1 with eventPosts := st1.eventPosts ++ [⟨p.itinerary, p.startDate⟩] }
        match ev with
        | .thrown m => calAddMsg ("Error adding itinerary to calendar: " ++ m) true st2
        | .data status msg =>
          if status = "success" then
            calAddMsg "Successfully added itinerary to your Google Calendar!" false st2
          else
            calAddMsg ("Failed to add itinerary to calendar: " ++ msg.getD "undefined")
              true st2
      else st1

/-- The in-flight label used by part_004 (line 346). -/
def addingToCalendarLabel : String :=
  "<i data-feather=\"loader\"></i> Adding to Calendar..."

/-- `handleScheduleConfirmation` of part_004 (lines 337-390), parameterised
by whether the `#confirmSchedule` element exists (`confirmBtnExists`) and by
the message of the `TypeError` thrown when it does not (`nullErrMessage`;
wording is engine-specific).  An empty start date only alerts.  When the
button element is absent — as on a fresh page load, where every script
version injects the scheduling modal dynamically and the page template has
no such element — `confirmBtn.disabled = true` throws inside the `try`; the
catch appends the scheduling error message and then itself throws a
`ReferenceError` (`confirmBtn` is a `const` block-scoped to the `try`), so
no status fetch and no event POST ever happen.  When the button exists, the
second authentication check runs: `authenticated: false` re-stores the
pending payload and redirects; `authenticated: true` issues the event POST,
reporting success, or failure (re-enabling the button), or — on a thrown
fetch — appending the error message and then crashing on the same
out-of-scope `confirmBtn` before re-enabling it. -/
def handleScheduleConfirmation (itinerary startDate : String)
    (confirmBtnExists : Bool) (nullErrMessage : String)
    (auth : AuthOutcome) (ev : EventOutcome) (st : CalState) : CalState :=
  if startDate = "" then st
  else if !confirmBtnExists then
    calAddMsg ("Error scheduling itinerary: " ++ nullErrMessage) true st
  else
    let st1 := { st with confirmDisabled := true, confirmLabel := addingToCalendarLabel }
    match auth with
    | .thrown m => calAddMsg ("Error scheduling itinerary: " ++ m) true st1
    | .data authenticated =>
      if !authenticated then
        { st1 with
          sessionPending := some ⟨itinerary, startDate⟩,
          redirect := some "/api/calendar/auth" }
      else
        let st2 := { st1 with eventPosts := st1.eventPosts ++ [⟨itinerary, startDate⟩] }
        match ev with
        | .thrown m => calAddMsg ("Error scheduling itinerary: " ++ m) true st2
        | .data status msg =>
          if status = "success" then
            calAddMsg "Successfully added itinerary to your Google Calendar!" false st2
          else
            { calAddMsg ("Failed to add itinerary to calendar: " ++ msg.getD "undefined")
                true st2 with
              confirmDisabled := false, confirmLabel := addToCalendarLabel }

/-- The `window` load handler of part_004 (lines 494-507): a stored pending
payload is removed before the `/api/calendar/status` fetch; when that status
reports authenticated, the re-attempt is delegated to
`handleScheduleConfirmation` (which performs its own second status fetch,
`auth2`). -/
def windowLoadHandlerP4 (confirmBtnExists : Bool) (nullErrMessage : String)
    (auth auth2 : AuthOutcome) (ev : EventOutcome) (st : CalState) : CalState :=
  match st.sessionPending with
  | none => st
  | some p =>
    let st1 := { st with sessionPending := none }
    match auth with
    | .thrown _ => st1
    | .data authenticated =>
      if authenticated then
        handleScheduleConfirmation p.itinerary p.startDate confirmBtnExists
          nullErrMessage auth2 ev st1
      else st1

/-- Consume an expected literal off the front of the input, returning the
rest (a regex engine matching the literal part of a pattern). -/
def dropLit : List Char → List Char → Option (List Char)
  | [], l => some l
  | _ :: _, [] => none
  | p :: ps, c :: cs => if c = p then dropLit ps cs else none

/-- The styled day-header fragment `<div class="day-header mb-3 mt-4"><h5
class="text-primary">Day $1: $2</h5></div>` for captures `$1 = ds`,
`$2 = title`. -/
def dayHeaderFragment (ds title : List Char) : List Char :=
  "<div class=\"day-header mb-3 mt-4\"><h5 class=\"text-primary\">Day ".data
    ++ ds ++ ": ".data ++ title ++ "</h5></div>".data

/-- The styled time-entry fragment `<div class="time-entry mb-2"><span
class="time">$1</span> $2</div>`. -/
def timeEntryFragment (time text : List Char) : List Char :=
  "<div class=\"time-entry mb-2\"><span class=\"time\">".data ++ time
    ++ "</span> ".data ++ text ++ "</div>".data

/-- The styled location fragment `<span class="location"><i
data-feather="map-pin"></i> $1</span>`. -/
def locationFragment (inner : List Char) : List Char :=
  "<span class=\"location\"><i data-feather=\"map-pin\"></i> ".data
    ++ inner ++ "</span>".data

/-- The styled duration fragment `<span class="duration"><i
data-feather="clock"></i> $1</span>`. -/
def durationFragment (inner : List Char) : List Char :=
  "<span class=\"duration\"><i data-feather=\"clock\"></i> ".data
    ++ inner ++ "</span>".data

/-- The styled activity-item fragment `<div class="activity-item"><i
data-feather="chevron-right"></i> $1</div>`. -/
def activityItemFragment (text : List Char) : List Char :=
  "<div class=\"activity-item\"><i data-feather=\"chevron-right\"></i> ".data
    ++ text ++ "</div>".data

/-- Matcher for `/## Day (\d+): ([^\n]+)/g` of `formatPlanContent`
(part_001 lines 21-22): on success returns the matched length and the
replacement `<div class="day-header mb-3 mt-4"><h5 class="text-primary">Day
$1: $2</h5></div>`. -/
def matcher1 (l : List Char) : Option (Nat × List Char) :=
  match dropLit "## Day ".data l with
  | none => none
  | some r1 =>
    let ds := r1.takeWhile Char.isDigit
    if ds.isEmpty then none
    else
      match dropLit ": ".data (r1.drop ds.length) with
      | none => none
      | some r3 =>
        let title := r3.takeWhile (fun c => c ≠ '\n')
        if title.isEmpty then none
        else
          some ("## Day ".data.length + ds.length + ": ".data.length + title.length,
            dayHeaderFragment ds title)

/-- The `\d{1,2}:\d{2}` part of the time-entry pattern, with the
backtracking of the greedy `\d{1,2}`: two digits before the colon are
preferred, one digit is accepted, anything else fails.  Returns the matched
time text and the rest. -/
def timeMatch (l : List Char) : Option (List Char × List Char) :=
  match l with
  | a :: b :: rest =>
    if a.isDigit && b.isDigit then
      match rest with
      | ':' :: m1 :: m2 :: r2 =>
        if m1.isDigit && m2.isDigit then some ([a, b, ':', m1, m2], r2) else none
      | _ => none
    else if a.isDigit && b = ':' then
      match rest with
      | m1 :: m2 :: r2 =>
        if m1.isDigit && m2.isDigit then some ([a, ':', m1, m2], r2) else none
      | _ => none
    else none
  | _ => none

/-- Matcher for `/(\d{1,2}:\d{2}) ([^\n]+)/g` (part_001 lines 25-26),
producing `<div class="time-entry mb-2"><span class="time">$1</span>
$2</div>`. -/
def matcher2 (l : List Char) : Option (Nat × List Char) :=
  match timeMatch l with
  | none => none
  | some (time, r) =>
    match r with
    | ' ' :: r2 =>
      let text := r2.takeWhile (fun c => c ≠ '\n')
      if text.isEmpty then none
      else
        some (time.length + 1 + text.length, timeEntryFragment time text)
    | _ => none

/-- Matcher for `/\*\*([^*]+)\*\*/g` (part_001 lines 29-30), producing
`<span class="location"><i data-feather="map-pin"></i> $1</span>`. -/
def matcher3 (l : List Char) : Option (Nat × List Char) :=
  match l with
  | '*' :: '*' :: r =>
    let inner := r.takeWhile (fun c => c ≠ '*')
    if inner.isEmpty then none
    else
      match r.drop inner.length with
      | '*' :: '*' :: _ =>
        some (2 + inner.length + 2, locationFragment inner)
      | _ => none
  | _ => none

/-- Matcher for `/\(([^)]+)\)/g` (part_001 lines 33-34), producing
`<span class="duration"><i data-feather="clock"></i> $1</span>`. -/
def matcher4 (l : List Char) : Option (Nat × List Char) :=
  match l with
  | '(' :: r =>
    let inner := r.takeWhile (fun c => c ≠ ')')
    if inner.isEmpty then none
    else
      match r.drop inner.length with
      | ')' :: _ =>
        some (1 + inner.length + 1, durationFragment inner)
      | _ => none
  | _ => none

/-- Matcher for the bullet pattern `- ([^\n]+)` with the global flag
(part_001 lines 37-38), producing
`<div class="activity-item"><i data-feather="chevron-right"></i> $1</div>`. -/
def matcher5 (l : List Char) : Option (Nat × List Char) :=
  match l with
  | '-' :: ' ' :: r =>
    let text := r.takeWhile (fun c => c ≠ '\n')
    if text.isEmpty then none
    else
      some (2 + text.length, activityItemFragment text)
  | _ => none

/-- One global-replace pass of `String.prototype.replace` with a `/g` regex:
scan left to right, emit the replacement at each (leftmost, non-overlapping)
match and continue after the matched text, copying non-matching characters
verbatim; replacement text is never rescanned within the same pass.  All the
matchers above consume at least one character, so fuel equal to the input
length suffices. -/
def replaceAllAux (m : List Char → Option (Nat × List Char)) :
    Nat → List Char → List Char
  | _, [] => []
  | 0, l => l
  | fuel + 1, c :: rest =>
    match m (c :: rest) with
    | some (len, repl) => repl ++ replaceAllAux m fuel (rest.drop (len - 1))
    | none => c :: replaceAllAux m fuel rest

/-- Global replace over a character list. -/
def replaceAll (m : List Char → Option (Nat × List Char)) (l : List Char) :
    List Char :=
  replaceAllAux m l.length l

/-- `formatPlanContent` of part_001 (lines 19-41): the five global regex
replacements applied in source order — day headers, time entries, bolded
locations, parenthesized durations, bullet activities. -/
def formatPlanContent (content : String) : String :=
  ⟨replaceAll matcher5 (replaceAll matcher4 (replaceAll matcher3
      (replaceAll matcher2 (replaceAll matcher1 content.data))))⟩

/-- Whether a matcher matches at some position of the input. -/
def hasMatchIn (m : List Char → Option (Nat × List Char)) : List Char → Bool
  | [] => false
  | c :: rest => (m (c :: rest)).isSome || hasMatchIn m rest

/-- Whether any of the five patterns matches anywhere in the string. -/
def noFormatMatches (s : String) : Bool :=
  !(hasMatchIn matcher1 s.data || hasMatchIn matcher2 s.data
    || hasMatchIn matcher3 s.data || hasMatchIn matcher4 s.data
    || hasMatchIn matcher5 s.data)

/-- The rendered content of an option div. -/
inductive RenderedContent where
  | html (s : String)
  | rawText (s : String)
  deriving Repr, DecidableEq

/-- The content rendering of `createResponseOption` of part_001
(lines 73-82): the option div gets `formatPlanContent` output as its
`innerHTML`; when formatting (or, in the chat.js variant, markdown parsing)
throws, the catch assigns the raw content to `textContent` instead. -/
def renderOptionContent (formattingThrows : Bool) (content : String) :
    RenderedContent :=
  if formattingThrows then .rawText content else .html (formatPlanContent content)

theorem getElem?_modifyAt {α : Type} (f : α → α) :
    ∀ (l : List α) (i j : Nat),
      (modifyAt i f l)[j]? = if j = i then l[j]?.map f else l[j]?
  | [], i, j => by simp [modifyAt]
  | x :: xs, i, j => by
    cases i with
    | zero =>
      cases j with
      | zero => simp [modifyAt]
      | succ j => simp [modifyAt]
    | succ i =>
      cases j with
      | zero => simp [modifyAt]
      | succ j =>
        simp only [modifyAt, List.getElem?_cons_succ, Nat.succ_eq_add_one]
        rw [getElem?_modifyAt f xs i j]
        simp [Nat.add_right_cancel_iff]

theorem getElem?_hideOtherOptions :
    ∀ (l : List OptionElem) (i j : Nat),
      (hideOtherOptions i l)[j]?
        = l[j]?.map (fun o => if j = i then o else o.hide)
  | [], i, j => by simp [hideOtherOptions]
  | x :: xs, i, j => by
    cases i with
    | zero =>
      cases j with
      | zero => simp [hideOtherOptions]
      | succ j => simp [hideOtherOptions]
    | succ i =>
      cases j with
      | zero => simp [hideOtherOptions]
      | succ j =>
        simp only [hideOtherOptions, List.getElem?_cons_succ]
        rw [getElem?_hideOtherOptions xs i j]
        simp [Nat.add_right_cancel_iff]

theorem countVisible_hideAll (l : List OptionElem) :
    countVisible (l.map OptionElem.hide) = 0 := by
  induction l with
  | nil => rfl
  | cons o os ih =>
    simp only [countVisible, List.map_cons, List.countP_cons, OptionElem.hide] at ih ⊢
    simp [ih]

theorem countVisible_hideOtherOptions :
    ∀ (l : List OptionElem) (i : Nat),
      countVisible (hideOtherOptions i l)
        = match l[i]? with
          | some o => if o.visible then 1 else 0
          | none => 0
  | [], i => by simp [hideOtherOptions, countVisible]
  | o :: os, 0 => by
    have h := countVisible_hideAll os
    simp only [countVisible] at h
    simp only [hideOtherOptions, countVisible, List.countP_cons, List.getElem?_cons_zero]
    rw [h]
    by_cases hv : o.visible <;> simp [hv]
  | o :: os, i + 1 => by
    simp only [hideOtherOptions, countVisible, List.countP_cons, OptionElem.hide,
      List.getElem?_cons_succ]
    rw [show (List.countP (·.visible) (hideOtherOptions i os) : Nat)
        = countVisible (hideOtherOptions i os) from rfl,
      countVisible_hideOtherOptions os i]
    simp

theorem modifyAt_modifyAt {α : Type} (f g : α → α) :
    ∀ (l : List α) (i : Nat),
      modifyAt i f (modifyAt i g l) = modifyAt i (fun x => f (g x)) l
  | [], i => by simp [modifyAt]
  | x :: xs, 0 => by simp [modifyAt]
  | x :: xs, i + 1 => by
    simp only [modifyAt]
    rw [modifyAt_modifyAt f g xs i]

/-- Hiding the non-selected options commutes with rewriting the button of the
selected option. -/
theorem hideOtherOptions_modifyAt (g : OptionElem → OptionElem) :
    ∀ (l : List OptionElem) (i : Nat),
      hideOtherOptions i (modifyAt i g l) = modifyAt i g (hideOtherOptions i l)
  | [], i => by simp [modifyAt, hideOtherOptions]
  | x :: xs, 0 => by simp [modifyAt, hideOtherOptions]
  | x :: xs, i + 1 => by
    simp only [modifyAt, hideOtherOptions]
    rw [hideOtherOptions_modifyAt g xs i]

theorem countVisible_modifyAt (f : OptionElem → OptionElem)
    (hf : ∀ o, (f o).visible = o.visible) :
    ∀ (l : List OptionElem) (i : Nat), countVisible (modifyAt i f l) = countVisible l
  | [], i => by simp [modifyAt]
  | x :: xs, 0 => by simp [modifyAt, countVisible, List.countP_cons, hf]
  | x :: xs, i + 1 => by
    simp only [modifyAt, countVisible, List.countP_cons]
    rw [show (List.countP (·.visible) (modifyAt i f xs) : Nat)
        = countVisible (modifyAt i f xs) from rfl,
      countVisible_modifyAt f hf xs i]
    rfl

/-- C1: for a successful chat response carrying an `alternatives` array of
length N, `addMessage` appends to the message list exactly one new message
element, whose selectable options are exactly the `createResponseOption`
renderings of the N alternatives, one per alternative and in array order
(so their number is N and the i-th option renders the i-th alternative). -/
theorem C1_addMessage_renders_alternatives (alts : List Alt) (chatMessages : List MessageDiv) :
    addMessage (.obj (some alts)) false false chatMessages
      = chatMessages
        ++ [.options recommendationsHeader (alts.map createResponseOption) false false]
    ∧ (alts.map createResponseOption).length = alts.length
    ∧ ∀ i : Nat, (alts.map createResponseOption)[i]?
        = alts[i]?.map createResponseOption := by
  refine ⟨rfl, alts.length_map createResponseOption, ?_⟩
  intro i
  exact List.getElem?_map createResponseOption alts i

/-- C2: after a click on one option's select button whose selection request
completes with a success body (chat.js lines 247-254), exactly one option
element of the rendered set remains visible, namely the clicked one at
position `i` (which was visible); every other option has been given
`display: none`. -/
theorem C2_selection_hides_all_siblings (userId queryText : String) (optionData : Alt)
    (i : Nat) (opts : List OptionElem) (pa : Option String)
    (hv : visibleAt opts i = some true) :
    countVisible (selectClick userId queryText optionData i opts (.data "success" pa)).2 = 1
    ∧ visibleAt (selectClick userId queryText optionData i opts (.data "success" pa)).2 i
        = some true
    ∧ ∀ j, j ≠ i →
        visibleAt (selectClick userId queryText optionData i opts (.data "success" pa)).2 j
          ≠ some true := by
  have hres : (selectClick userId queryText optionData i opts (.data "success" pa)).2
      = modifyAt i
          (fun o => setSelectBtn true selectedLabel (setSelectBtn true selectLoadingLabel o))
          (hideOtherOptions i opts) := by
    simp only [selectClick]
    rw [if_pos trivial, hideOtherOptions_modifyAt, modifyAt_modifyAt]
  obtain ⟨o, ho, hov⟩ : ∃ o, opts[i]? = some o ∧ o.visible = true := by
    unfold visibleAt at hv
    cases h : opts[i]? with
    | none => rw [h] at hv; simp at hv
    | some o => rw [h] at hv; simp at hv; exact ⟨o, rfl, hv⟩
  refine ⟨?_, ?_, ?_⟩
  · rw [hres,
      countVisible_modifyAt
        (fun o => setSelectBtn true selectedLabel (setSelectBtn true selectLoadingLabel o))
        (fun o => rfl),
      countVisible_hideOtherOptions, ho]
    simp [hov]
  · rw [hres]
    unfold visibleAt
    rw [getElem?_modifyAt, if_pos rfl, getElem?_hideOtherOptions, ho]
    simp [setSelectBtn, hov]
  · intro j hj
    rw [hres]
    unfold visibleAt
    rw [getElem?_modifyAt, if_neg hj, getElem?_hideOtherOptions]
    cases opts[j]? with
    | none => simp
    | some o2 => simp [hj, OptionElem.hide]

/-- Witness for C2 on a concrete two-option set. -/
theorem C2_selection_hides_all_siblings_witness :
    visibleAt [createResponseOption ⟨"Plan A", none⟩, createResponseOption ⟨"Plan B", none⟩]
        0 = some true
    ∧ countVisible (selectClick "u1" "q" ⟨"Plan A", none⟩ 0
        [createResponseOption ⟨"Plan A", none⟩, createResponseOption ⟨"Plan B", none⟩]
        (.data "success" none)).2 = 1
    ∧ visibleAt (selectClick "u1" "q" ⟨"Plan A", none⟩ 0
        [createResponseOption ⟨"Plan A", none⟩, createResponseOption ⟨"Plan B", none⟩]
        (.data "success" none)).2 0 = some true
    ∧ visibleAt (selectClick "u1" "q" ⟨"Plan A", none⟩ 0
        [createResponseOption ⟨"Plan A", none⟩, createResponseOption ⟨"Plan B", none⟩]
        (.data "success" none)).2 1 ≠ some true :=
  ⟨by decide,
   (C2_selection_hides_all_siblings "u1" "q" ⟨"Plan A", none⟩ 0
      [createResponseOption ⟨"Plan A", none⟩, createResponseOption ⟨"Plan B", none⟩]
      none (by decide)).1,
   (C2_selection_hides_all_siblings "u1" "q" ⟨"Plan A", none⟩ 0
      [createResponseOption ⟨"Plan A", none⟩, createResponseOption ⟨"Plan B", none⟩]
      none (by decide)).2.1,
   (C2_selection_hides_all_siblings "u1" "q" ⟨"Plan A", none⟩ 0
      [createResponseOption ⟨"Plan A", none⟩, createResponseOption ⟨"Plan B", none⟩]
      none (by decide)).2.2 1 (by decide)⟩

/-- C7: on every select-button click the first three actions are disabling the
button, switching it to the loading label, and only then issuing the selection
POST; and on every failed selection (thrown error or non-success body) the
clicked option's button ends re-enabled with the original
`Select this option` label (chat.js lines 222-301). -/
theorem C7_select_disabled_before_post_and_restored_on_failure
    (userId queryText : String) (optionData : Alt) (i : Nat)
    (opts : List OptionElem) (outcome : SelectOutcome) (hi : i < opts.length) :
    (selectClick userId queryText optionData i opts outcome).1.take 3
      = [.disableSelect, .setSelectLabel selectLoadingLabel,
         .postSelect userId queryText optionData.content]
    ∧ ((outcome = .thrown ∨ ∃ s pa, outcome = .data s pa ∧ s ≠ "success") →
        selectBtnStateAt (selectClick userId queryText optionData i opts outcome).2 i
          = some (false, selectInitLabel)) := by
  have hbtn : selectBtnStateAt
      (modifyAt i (setSelectBtn false selectInitLabel)
        (modifyAt i (setSelectBtn true selectLoadingLabel) opts)) i
      = some (false, selectInitLabel) := by
    unfold selectBtnStateAt
    rw [modifyAt_modifyAt, getElem?_modifyAt, if_pos rfl,
      List.getElem?_eq_getElem hi]
    simp [setSelectBtn]
  cases outcome with
  | thrown =>
    constructor
    · simp [selectClick]
    · intro _
      simpa [selectClick] using hbtn
  | data s pa =>
    by_cases hs : s = "success"
    · subst hs
      constructor
      · cases pa <;> simp [selectClick]
      · rintro (h | ⟨s', pa', heq, hne⟩)
        · cases h
        · cases heq
          exact absurd rfl hne
    · constructor
      · simp [selectClick, hs]
      · intro _
        simpa [selectClick, hs] using hbtn

/-- Witness for C7 at a concrete failed selection. -/
theorem C7_select_disabled_before_post_and_restored_on_failure_witness :
    0 < ([createResponseOption ⟨"Plan A", none⟩] : List OptionElem).length
    ∧ (selectClick "u1" "q" ⟨"Plan A", none⟩ 0
        [createResponseOption ⟨"Plan A", none⟩] .thrown).1.take 3
      = [.disableSelect, .setSelectLabel selectLoadingLabel,
         .postSelect "u1" "q" "Plan A"]
    ∧ selectBtnStateAt (selectClick "u1" "q" ⟨"Plan A", none⟩ 0
        [createResponseOption ⟨"Plan A", none⟩] .thrown).2 0
      = some (false, selectInitLabel) :=
  ⟨by decide,
   (C7_select_disabled_before_post_and_restored_on_failure "u1" "q" ⟨"Plan A", none⟩ 0
      [createResponseOption ⟨"Plan A", none⟩] .thrown (by decide)).1,
   (C7_select_disabled_before_post_and_restored_on_failure "u1" "q" ⟨"Plan A", none⟩ 0
      [createResponseOption ⟨"Plan A", none⟩] .thrown (by decide)).2 (Or.inl rfl)⟩

theorem filter_ne_loading_of_not_mem (ns : List DomNode) (id : Nat)
    (h : DomNode.loading id ∉ ns) :
    ns.filter (fun n => n ≠ DomNode.loading id) = ns := by
  rw [List.filter_eq_self]
  intro a ha
  simp only [ne_eq, decide_eq_true_eq]
  exact fun he => h (he ▸ ha)

/-- C10: a chat form submission whose input value is empty or whitespace-only
after trimming returns before doing anything: no POST is issued, no message or
loading indicator is appended, the input is not cleared — the whole UI state
is unchanged (chat.js lines 376-377). -/
theorem C10_empty_submit_is_noop (userId : String) (fr : FetchResult) (st : UIState)
    (h : trimValue st.inputValue = "") :
    chatFormSubmit userId fr st = st := by
  simp [chatFormSubmit, h]

/-- Witness for C10 on a whitespace-only input. -/
theorem C10_empty_submit_is_noop_witness :
    trimValue "   " = ""
    ∧ chatFormSubmit "u1" .netError
        { nodes := [], nextId := 0, inputValue := "   ", cooldown := none,
          chatPosts := [], savePosts := [], modal := none }
      = { nodes := [], nextId := 0, inputValue := "   ", cooldown := none,
          chatPosts := [], savePosts := [], modal := none } :=
  ⟨by decide, C10_empty_submit_is_noop "u1" .netError _ (by decide)⟩

/-- C3 counterexample: a chat submission answered by HTTP 429 whose body is
not JSON (`response.json()` throws, so the caught error carries no `status`
field) appends the generic error message, does not append the rate-limit
message, and does not start the 30-second cooldown — refuting the claim that
every 429 outcome gets the distinguished rate-limit handling. -/
theorem C3_429_nonjson_counterexample :
    DomNode.msg (.text genericErrorMessage false true)
      ∈ (chatFormSubmit "u1" (.resp 429 none)
          { nodes := [], nextId := 0, inputValue := "plan a trip", cooldown := none,
            chatPosts := [], savePosts := [], modal := none }).nodes
    ∧ DomNode.msg (.text rateLimitMessage false true)
      ∉ (chatFormSubmit "u1" (.resp 429 none)
          { nodes := [], nextId := 0, inputValue := "plan a trip", cooldown := none,
            chatPosts := [], savePosts := [], modal := none }).nodes
    ∧ (chatFormSubmit "u1" (.resp 429 none)
          { nodes := [], nextId := 0, inputValue := "plan a trip", cooldown := none,
            chatPosts := [], savePosts := [], modal := none }).cooldown = none := by
  decide

/-- C3 (amended): for every chat submission answered by HTTP 429 whose body
parses as JSON with a non-success status, the error handler appends the
distinguished rate-limit message, disables the submit input for the fixed
30-second cooldown, and does not append the generic error message. -/
theorem C3_429_rate_limit_handling (userId : String) (st : UIState) (data : ChatData)
    (hmsg : trimValue st.inputValue ≠ "")
    (hstatus : data.status ≠ "success")
    (hgen : DomNode.msg (.text genericErrorMessage false true) ∉ st.nodes) :
    DomNode.msg (.text rateLimitMessage false true)
        ∈ (chatFormSubmit userId (.resp 429 (some data)) st).nodes
    ∧ (chatFormSubmit userId (.resp 429 (some data)) st).cooldown = some 30
    ∧ DomNode.msg (.text genericErrorMessage false true)
        ∉ (chatFormSubmit userId (.resp 429 (some data)) st).nodes := by
  unfold chatFormSubmit
  rw [if_neg hmsg]
  simp only [showLoading, handleError, removeNode, appendMsg, disableSubmit,
    mkMessageDiv, if_neg hstatus]
  rw [if_pos trivial]
  refine ⟨?_, rfl, ?_⟩
  · simp
  · simp only [List.mem_append, List.mem_filter, List.mem_singleton, not_or]
    refine ⟨?_, ?_⟩
    · rintro ⟨⟨(hmem | heq1) | heq2, -⟩, -⟩
      · exact hgen hmem
      · simp at heq1
      · simp at heq2
    · intro hcontra
      have h : genericErrorMessage = rateLimitMessage := by
        injection hcontra with h1
        injection h1
      exact absurd h (by decide)

/-- Witness for the amended C3 at a concrete 429 response with a JSON error
body. -/
theorem C3_429_rate_limit_handling_witness :
    trimValue "plan a trip" ≠ ""
    ∧ ("error" : String) ≠ "success"
    ∧ DomNode.msg (.text rateLimitMessage false true)
        ∈ (chatFormSubmit "u1" (.resp 429 (some ⟨"error", none, some "Too many requests"⟩))
            { nodes := [], nextId := 0, inputValue := "plan a trip", cooldown := none,
              chatPosts := [], savePosts := [], modal := none }).nodes
    ∧ (chatFormSubmit "u1" (.resp 429 (some ⟨"error", none, some "Too many requests"⟩))
            { nodes := [], nextId := 0, inputValue := "plan a trip", cooldown := none,
              chatPosts := [], savePosts := [], modal := none }).cooldown = some 30
    ∧ DomNode.msg (.text genericErrorMessage false true)
        ∉ (chatFormSubmit "u1" (.resp 429 (some ⟨"error", none, some "Too many requests"⟩))
            { nodes := [], nextId := 0, inputValue := "plan a trip", cooldown := none,
              chatPosts := [], savePosts := [], modal := none }).nodes :=
  ⟨by decide, by decide,
   (C3_429_rate_limit_handling "u1"
      { nodes := [], nextId := 0, inputValue := "plan a trip", cooldown := none,
        chatPosts := [], savePosts := [], modal := none }
      ⟨"error", none, some "Too many requests"⟩ (by decide) (by decide) (by decide)).1,
   (C3_429_rate_limit_handling "u1"
      { nodes := [], nextId := 0, inputValue := "plan a trip", cooldown := none,
        chatPosts := [], savePosts := [], modal := none }
      ⟨"error", none, some "Too many requests"⟩ (by decide) (by decide) (by decide)).2.1,
   (C3_429_rate_limit_handling "u1"
      { nodes := [], nextId := 0, inputValue := "plan a trip", cooldown := none,
        chatPosts := [], savePosts := [], modal := none }
      ⟨"error", none, some "Too many requests"⟩ (by decide) (by decide) (by decide)).2.2⟩

theorem countP_isLoading_msg_append (ns : List DomNode) (m : MessageDiv) :
    (ns ++ [DomNode.msg m]).countP (·.isLoading) = ns.countP (·.isLoading) := by
  simp [List.countP_append, DomNode.isLoading]

theorem filter_append_msg_loading (base : List DomNode) (m : MessageDiv) (id : Nat)
    (h : DomNode.loading id ∉ base) :
    (base ++ [DomNode.msg m] ++ [DomNode.loading id]).filter
        (fun n => n ≠ DomNode.loading id)
      = base ++ [DomNode.msg m] := by
  rw [List.filter_append, List.filter_append, filter_ne_loading_of_not_mem base id h]
  simp

theorem filter_append_loading (base : List DomNode) (id : Nat)
    (h : DomNode.loading id ∉ base) :
    (base ++ [DomNode.loading id]).filter (fun n => n ≠ DomNode.loading id) = base := by
  rw [List.filter_append, filter_ne_loading_of_not_mem base id h]
  simp

theorem loadingCount_chatFormSubmit (userId : String) (fr : FetchResult) (st : UIState)
    (h : DomNode.loading st.nextId ∉ st.nodes) :
    loadingCount (chatFormSubmit userId fr st) = loadingCount st := by
  by_cases hm : trimValue st.inputValue = ""
  · simp [chatFormSubmit, hm]
  · have h2 : DomNode.loading st.nextId ∉
        st.nodes ++ [DomNode.msg (MessageDiv.text (trimValue st.inputValue) true false)] := by
      simp only [List.mem_append, List.mem_singleton]
      rintro (hmem | heq)
      · exact h hmem
      · cases heq
    unfold chatFormSubmit
    rw [if_neg hm]
    cases fr with
    | netError =>
      simp only [handleError, showLoading, removeNode, appendMsg, loadingCount, mkMessageDiv]
      rw [if_neg (by simp), filter_append_msg_loading _ _ _ h,
        countP_isLoading_msg_append, countP_isLoading_msg_append]
    | resp httpStatus body =>
      cases body with
      | none =>
        simp only [handleError, showLoading, removeNode, appendMsg, loadingCount, mkMessageDiv]
        rw [if_neg (by simp), filter_append_msg_loading _ _ _ h,
          countP_isLoading_msg_append, countP_isLoading_msg_append]
      | some data =>
        by_cases hds : data.status = "success"
        · simp only [handleError, showLoading, removeNode, appendMsg, disableSubmit,
            loadingCount, mkMessageDiv, if_pos hds]
          rw [filter_append_msg_loading _ _ _ h,
            countP_isLoading_msg_append, countP_isLoading_msg_append]
        · by_cases h429 : (some httpStatus : Option Nat) = some 429
          · simp only [handleError, showLoading, removeNode, appendMsg, disableSubmit,
              loadingCount, mkMessageDiv, if_neg hds, if_pos h429]
            rw [filter_append_msg_loading _ _ _ h, filter_ne_loading_of_not_mem _ _ h2,
              countP_isLoading_msg_append, countP_isLoading_msg_append]
          · simp only [handleError, showLoading, removeNode, appendMsg, disableSubmit,
              loadingCount, mkMessageDiv, if_neg hds, if_neg h429]
            rw [filter_append_msg_loading _ _ _ h, filter_ne_loading_of_not_mem _ _ h2,
              countP_isLoading_msg_append, countP_isLoading_msg_append]

theorem loadingCount_refinePlan (userId currentPlan userChanges : String)
    (outcome : JsonOutcome) (st : UIState)
    (h : DomNode.loading st.nextId ∉ st.nodes) :
    loadingCount (refinePlan userId currentPlan userChanges outcome st) = loadingCount st := by
  unfold refinePlan
  cases outcome with
  | thrown m =>
    simp only [showLoading, removeNode, appendMsg, loadingCount, mkMessageDiv]
    rw [filter_append_msg_loading _ _ _ h,
      countP_isLoading_msg_append, countP_isLoading_msg_append]
  | data d =>
    by_cases hds : d.status = "success"
    · simp only [showLoading, removeNode, appendMsg, loadingCount, mkMessageDiv, if_pos hds]
      rw [filter_append_msg_loading _ _ _ h,
        countP_isLoading_msg_append, countP_isLoading_msg_append]
    · simp only [showLoading, removeNode, appendMsg, loadingCount, mkMessageDiv, if_neg hds]
      rw [filter_append_msg_loading _ _ _ h,
        countP_isLoading_msg_append, countP_isLoading_msg_append]

theorem loadingCount_confirmPlan (userId finalItinerary userChanges : String)
    (outcome : JsonOutcome) (st : UIState)
    (h : DomNode.loading st.nextId ∉ st.nodes) :
    loadingCount (confirmPlan userId finalItinerary userChanges outcome st)
      = loadingCount st := by
  unfold confirmPlan
  cases outcome with
  | thrown m =>
    simp only [showLoading, removeNode, appendMsg, loadingCount, mkMessageDiv]
    rw [filter_append_loading _ _ h, countP_isLoading_msg_append]
  | data d =>
    by_cases hds : d.status = "success"
    · simp only [showLoading, removeNode, appendMsg, loadingCount, mkMessageDiv, if_pos hds]
      rw [filter_append_loading _ _ h, countP_isLoading_msg_append]
    · simp only [showLoading, removeNode, appendMsg, loadingCount, mkMessageDiv, if_neg hds]
      rw [filter_append_loading _ _ h, countP_isLoading_msg_append]

/-- C8: each of the chat submit handler (chat.js lines 373-416), `refinePlan`
(part_001 lines 154-192) and `confirmPlan` (part_001 lines 197-233) removes
the loading indicator it created on every completion path — success body,
application-level failure body, and thrown network/parse error — so the
number of loading indicators in the container returns to its initial value
(the freshness hypothesis says the new indicator's identity is not already
taken, which the creation counter guarantees). -/
theorem C8_loading_indicator_removed_on_every_path :
    (∀ (userId : String) (fr : FetchResult) (st : UIState),
        DomNode.loading st.nextId ∉ st.nodes →
        loadingCount (chatFormSubmit userId fr st) = loadingCount st)
    ∧ (∀ (userId currentPlan userChanges : String) (outcome : JsonOutcome) (st : UIState),
        DomNode.loading st.nextId ∉ st.nodes →
        loadingCount (refinePlan userId currentPlan userChanges outcome st) = loadingCount st)
    ∧ (∀ (userId finalItinerary userChanges : String) (outcome : JsonOutcome) (st : UIState),
        DomNode.loading st.nextId ∉ st.nodes →
        loadingCount (confirmPlan userId finalItinerary userChanges outcome st)
          = loadingCount st) :=
  ⟨loadingCount_chatFormSubmit,
   loadingCount_refinePlan,
   loadingCount_confirmPlan⟩

/-- Witness for C8 at concrete failing network outcomes. -/
theorem C8_loading_indicator_removed_on_every_path_witness :
    DomNode.loading 0 ∉ ([] : List DomNode)
    ∧ loadingCount (chatFormSubmit "u1" .netError
        { nodes := [], nextId := 0, inputValue := "plan a trip", cooldown := none,
          chatPosts := [], savePosts := [], modal := none })
      = loadingCount
        { nodes := [], nextId := 0, inputValue := "plan a trip", cooldown := none,
          chatPosts := [], savePosts := [], modal := none }
    ∧ loadingCount (refinePlan "u1" "plan text" "more food" (.thrown "Failed to fetch")
        { nodes := [], nextId := 0, inputValue := "", cooldown := none,
          chatPosts := [], savePosts := [], modal := none })
      = loadingCount
        { nodes := [], nextId := 0, inputValue := "", cooldown := none,
          chatPosts := [], savePosts := [], modal := none }
    ∧ loadingCount (confirmPlan "u1" "plan text" "" (.data ⟨"error", none, some "boom"⟩)
        { nodes := [], nextId := 0, inputValue := "", cooldown := none,
          chatPosts := [], savePosts := [], modal := none })
      = loadingCount
        { nodes := [], nextId := 0, inputValue := "", cooldown := none,
          chatPosts := [], savePosts := [], modal := none } :=
  ⟨by decide,
   C8_loading_indicator_removed_on_every_path.1 "u1" .netError
     { nodes := [], nextId := 0, inputValue := "plan a trip", cooldown := none,
       chatPosts := [], savePosts := [], modal := none } (by decide),
   C8_loading_indicator_removed_on_every_path.2.1 "u1" "plan text" "more food"
     (.thrown "Failed to fetch")
     { nodes := [], nextId := 0, inputValue := "", cooldown := none,
       chatPosts := [], savePosts := [], modal := none } (by decide),
   C8_loading_indicator_removed_on_every_path.2.2 "u1" "plan text" ""
     (.data ⟨"error", none, some "boom"⟩)
     { nodes := [], nextId := 0, inputValue := "", cooldown := none,
       chatPosts := [], savePosts := [], modal := none } (by decide)⟩

theorem renderPreview_foldl_from :
    ∀ (p q : List PreviewEvent) (acc : Int × List PreviewItem × List PreviewItem),
      (∀ e ∈ p, e ∈ q) →
      (∀ item ∈ acc.2.1 ++ acc.2.2, itemFromPreview q item) →
      ∀ item ∈ (p.foldl renderPreviewStep acc).2.1
          ++ (p.foldl renderPreviewStep acc).2.2,
        itemFromPreview q item
  | [], q, acc, hpq, hacc => by simpa using hacc
  | e :: p, q, acc, hpq, hacc => by
    rw [List.foldl_cons]
    refine renderPreview_foldl_from p q _ (fun x hx => hpq x (List.mem_cons_of_mem e hx)) ?_
    intro item hitem
    have he : e ∈ q := hpq e (List.mem_cons_self e p)
    unfold renderPreviewStep at hitem
    by_cases hd : e.day_number ≠ acc.1
    · rw [if_pos hd] at hitem
      simp only [List.mem_append, List.mem_cons, List.mem_singleton] at hitem
      rcases hitem with (hitem | hitem) | hitem | hitem | hfalse
      · exact hacc item (List.mem_append_left _ hitem)
      · exact hacc item (List.mem_append_right _ hitem)
      · subst hitem
        exact ⟨e, he, rfl, rfl⟩
      · subst hitem
        exact he
      · cases hfalse
    · rw [if_neg hd] at hitem
      simp only [List.mem_append, List.mem_singleton] at hitem
      rcases hitem with hitem | hitem | hitem
      · exact hacc item (List.mem_append_left _ hitem)
      · exact hacc item (List.mem_append_right _ hitem)
      · subst hitem
        exact he

/-- C4: a successful scheduling-preview response fully replaces the events
list: the result does not depend on the previously displayed contents (for
both the part_001 `updateEventsPreview` and the chat.js `startDate` change
handler), and every displayed fragment derives from an event of the new
preview — so no entry of a prior date's preview can remain. -/
theorem C4_preview_fully_replaces_events_list :
    (∀ (p : List PreviewEvent) (old old2 : List PreviewItem),
      updateEventsPreview (.data "success" p) old
        = updateEventsPreview (.data "success" p) old2)
    ∧ (∀ (p : List PreviewEvent) (old : List PreviewItem) (item : PreviewItem),
        item ∈ updateEventsPreview (.data "success" p) old → itemFromPreview p item)
    ∧ (∀ (p : List PreviewEvent) (old old2 : List PreviewCard),
        startDateChangeHandler (.data "success" p) old
          = startDateChangeHandler (.data "success" p) old2)
    ∧ (∀ (p : List PreviewEvent) (old : List PreviewCard) (c : PreviewCard),
        c ∈ startDateChangeHandler (.data "success" p) old
          → ∃ e ∈ p, c = mkPreviewCard e) := by
  refine ⟨fun p old old2 => rfl, ?_, fun p old old2 => rfl, ?_⟩
  · intro p old item hmem
    simp only [updateEventsPreview, if_pos rfl] at hmem
    exact renderPreview_foldl_from p p (-1, [], []) (fun e he => he)
      (by intro item h; cases h) item hmem
  · intro p old c hmem
    have hmem2 : c ∈ p.map mkPreviewCard := by
      simpa [startDateChangeHandler] using hmem
    rcases List.mem_map.mp hmem2 with ⟨e, he, hc⟩
    exact ⟨e, he, hc.symm⟩

/-- Witness for C4 at a one-event preview rendered over a stale list. -/
theorem C4_preview_fully_replaces_events_list_witness :
    PreviewItem.eventCard ⟨1, "Tokyo", "Visit temple", "09:00", "2 hours", "Asakusa", "Temple visit"⟩
      ∈ updateEventsPreview
        (.data "success" [⟨1, "Tokyo", "Visit temple", "09:00", "2 hours", "Asakusa", "Temple visit"⟩])
        [PreviewItem.dayHeader 9 "Stale day"]
    ∧ itemFromPreview [⟨1, "Tokyo", "Visit temple", "09:00", "2 hours", "Asakusa", "Temple visit"⟩]
        (PreviewItem.eventCard ⟨1, "Tokyo", "Visit temple", "09:00", "2 hours", "Asakusa", "Temple visit"⟩)
    ∧ mkPreviewCard ⟨1, "Tokyo", "Visit temple", "09:00", "2 hours", "Asakusa", "Temple visit"⟩
      ∈ startDateChangeHandler
        (.data "success" [⟨1, "Tokyo", "Visit temple", "09:00", "2 hours", "Asakusa", "Temple visit"⟩]) [] :=
  ⟨by decide,
   C4_preview_fully_replaces_events_list.2.1
     [⟨1, "Tokyo", "Visit temple", "09:00", "2 hours", "Asakusa", "Temple visit"⟩]
     [PreviewItem.dayHeader 9 "Stale day"]
     (PreviewItem.eventCard ⟨1, "Tokyo", "Visit temple", "09:00", "2 hours", "Asakusa", "Temple visit"⟩)
     (by decide),
   by decide⟩

/-- C5: whenever the schedule-confirm handler sees `authenticated: false`
from the status check (and a non-empty start date, which the handler guards
first), it stores the pending {itinerary, startDate} payload in
`sessionStorage`, redirects the browser to the authorization endpoint, and
issues no POST to `/api/calendar/event` in that turn. -/
theorem C5_unauthenticated_confirm_stores_and_redirects
    (finalItinerary startDate : String) (ev : EventOutcome) (st : CalState)
    (hdate : startDate ≠ "") :
    (confirmScheduleClick finalItinerary startDate (.data false) ev st).sessionPending
      = some ⟨finalItinerary, startDate⟩
    ∧ (confirmScheduleClick finalItinerary startDate (.data false) ev st).redirect
      = some "/api/calendar/auth"
    ∧ (confirmScheduleClick finalItinerary startDate (.data false) ev st).eventPosts
      = st.eventPosts := by
  unfold confirmScheduleClick
  rw [if_neg hdate]
  exact ⟨rfl, rfl, rfl⟩

/-- Witness for C5 at a concrete confirm action. -/
theorem C5_unauthenticated_confirm_stores_and_redirects_witness :
    ("2025-06-01" : String) ≠ ""
    ∧ (confirmScheduleClick "Day 1: Tokyo" "2025-06-01" (.data false)
        (.data "success" none)
        { nodes := [], sessionPending := none, redirect := none, eventPosts := [],
          confirmDisabled := false, confirmLabel := addToCalendarLabel,
          modalOpen := true }).sessionPending = some ⟨"Day 1: Tokyo", "2025-06-01"⟩
    ∧ (confirmScheduleClick "Day 1: Tokyo" "2025-06-01" (.data false)
        (.data "success" none)
        { nodes := [], sessionPending := none, redirect := none, eventPosts := [],
          confirmDisabled := false, confirmLabel := addToCalendarLabel,
          modalOpen := true }).redirect = some "/api/calendar/auth"
    ∧ (confirmScheduleClick "Day 1: Tokyo" "2025-06-01" (.data false)
        (.data "success" none)
        { nodes := [], sessionPending := none, redirect := none, eventPosts := [],
          confirmDisabled := false, confirmLabel := addToCalendarLabel,
          modalOpen := true }).eventPosts = [] :=
  ⟨by decide,
   (C5_unauthenticated_confirm_stores_and_redirects "Day 1: Tokyo" "2025-06-01"
      (.data "success" none)
      { nodes := [], sessionPending := none, redirect := none, eventPosts := [],
        confirmDisabled := false, confirmLabel := addToCalendarLabel,
        modalOpen := true } (by decide)).1,
   (C5_unauthenticated_confirm_stores_and_redirects "Day 1: Tokyo" "2025-06-01"
      (.data "success" none)
      { nodes := [], sessionPending := none, redirect := none, eventPosts := [],
        confirmDisabled := false, confirmLabel := addToCalendarLabel,
        modalOpen := true } (by decide)).2.1,
   (C5_unauthenticated_confirm_stores_and_redirects "Day 1: Tokyo" "2025-06-01"
      (.data "success" none)
      { nodes := [], sessionPending := none, redirect := none, eventPosts := [],
        confirmDisabled := false, confirmLabel := addToCalendarLabel,
        modalOpen := true } (by decide)).2.2⟩

/-- The part_001 load handler alone realises the intended once-only
re-attempt: the payload is removed before any outcome of the authentication
check is known (a thrown status fetch still leaves it cleared); an
authenticated status yields exactly one event-creation POST, with the payload
never re-stored whatever that call's outcome; an unauthenticated or thrown
status yields no POST. -/
theorem windowLoadHandler_part1_consumes_pending_once
    (auth : AuthOutcome) (ev : EventOutcome) (st : CalState) (p : Pending)
    (hp : st.sessionPending = some p) :
    (windowLoadHandler auth ev st).sessionPending = none
    ∧ (auth = .data true →
        (windowLoadHandler auth ev st).eventPosts
          = st.eventPosts ++ [⟨p.itinerary, p.startDate⟩])
    ∧ (auth ≠ .data true →
        (windowLoadHandler auth ev st).eventPosts = st.eventPosts) := by
  unfold windowLoadHandler
  rw [hp]
  cases auth with
  | thrown m =>
    refine ⟨rfl, ?_, fun _ => rfl⟩
    intro hcontra
    cases hcontra
  | data authenticated =>
    cases authenticated with
    | false =>
      refine ⟨rfl, ?_, fun _ => rfl⟩
      intro hcontra
      cases hcontra
    | true =>
      refine ⟨?_, ?_, ?_⟩
      · cases ev with
        | thrown m => rfl
        | data status msg =>
          by_cases hs : status = "success"
          · simp [hs, calAddMsg]
          · simp [hs, calAddMsg]
      · intro _
        cases ev with
        | thrown m => rfl
        | data status msg =>
          by_cases hs : status = "success"
          · simp [hs, calAddMsg]
          · simp [hs, calAddMsg]
      · intro hcontra
        exact absurd rfl hcontra

/-- The part_001 once-only re-attempt at a concrete reload with a stored
payload and a failing event call (the payload stays consumed). -/
theorem windowLoadHandler_part1_consumes_pending_once_instance :
    ({ nodes := [], sessionPending := some ⟨"Day 1: Tokyo", "2025-06-01"⟩,
       redirect := none, eventPosts := [], confirmDisabled := false,
       confirmLabel := addToCalendarLabel, modalOpen := false } : CalState).sessionPending
      = some ⟨"Day 1: Tokyo", "2025-06-01"⟩
    ∧ (windowLoadHandler (.data true) (.data "error" (some "boom"))
        { nodes := [], sessionPending := some ⟨"Day 1: Tokyo", "2025-06-01"⟩,
          redirect := none, eventPosts := [], confirmDisabled := false,
          confirmLabel := addToCalendarLabel, modalOpen := false }).sessionPending = none
    ∧ (windowLoadHandler (.data true) (.data "error" (some "boom"))
        { nodes := [], sessionPending := some ⟨"Day 1: Tokyo", "2025-06-01"⟩,
          redirect := none, eventPosts := [], confirmDisabled := false,
          confirmLabel := addToCalendarLabel, modalOpen := false }).eventPosts
      = [⟨"Day 1: Tokyo", "2025-06-01"⟩] :=
  ⟨by decide,
   (windowLoadHandler_part1_consumes_pending_once (.data true)
      (.data "error" (some "boom"))
      { nodes := [], sessionPending := some ⟨"Day 1: Tokyo", "2025-06-01"⟩,
        redirect := none, eventPosts := [], confirmDisabled := false,
        confirmLabel := addToCalendarLabel, modalOpen := false }
      ⟨"Day 1: Tokyo", "2025-06-01"⟩ (by decide)).1,
   (windowLoadHandler_part1_consumes_pending_once (.data true)
      (.data "error" (some "boom"))
      { nodes := [], sessionPending := some ⟨"Day 1: Tokyo", "2025-06-01"⟩,
        redirect := none, eventPosts := [], confirmDisabled := false,
        confirmLabel := addToCalendarLabel, modalOpen := false }
      ⟨"Day 1: Tokyo", "2025-06-01"⟩ (by decide)).2.1 rfl⟩

theorem replaceAllAux_eq_self (m : List Char → Option (Nat × List Char)) :
    ∀ (fuel : Nat) (l : List Char), hasMatchIn m l = false →
      replaceAllAux m fuel l = l
  | fuel, [], _ => by cases fuel <;> rfl
  | 0, c :: rest, _ => rfl
  | fuel + 1, c :: rest, h => by
    have h' := h
    simp only [hasMatchIn, Bool.or_eq_false_iff] at h'
    cases hm : m (c :: rest) with
    | some v => rw [hm] at h'; simp at h'
    | none =>
      simp only [replaceAllAux, hm]
      rw [replaceAllAux_eq_self m fuel rest h'.2]

theorem replaceAll_eq_self (m : List Char → Option (Nat × List Char))
    (l : List Char) (h : hasMatchIn m l = false) : replaceAll m l = l :=
  replaceAllAux_eq_self m l.length l h

theorem replaceAllAux_nil (m : List Char → Option (Nat × List Char)) (fuel : Nat) :
    replaceAllAux m fuel [] = [] := by
  cases fuel <;> rfl

/-- When the matcher consumes the entire input at position 0, the pass yields
exactly the replacement. -/
theorem replaceAll_total_match (m : List Char → Option (Nat × List Char))
    (l repl : List Char) (hne : l ≠ []) (hm : m l = some (l.length, repl)) :
    replaceAll m l = repl := by
  cases l with
  | nil => exact absurd rfl hne
  | cons c rest =>
    unfold replaceAll
    simp only [List.length_cons, replaceAllAux, hm]
    rw [Nat.add_sub_cancel, List.drop_length, replaceAllAux_nil, List.append_nil]

theorem takeWhile_all (p : Char → Bool) :
    ∀ l : List Char, (∀ c ∈ l, p c = true) → l.takeWhile p = l
  | [], _ => rfl
  | c :: cs, h => by
    have hc := h c (List.mem_cons_self c cs)
    simp [List.takeWhile_cons, hc,
      takeWhile_all p cs (fun d hd => h d (List.mem_cons_of_mem _ hd))]

theorem takeWhile_append_cons (p : Char → Bool) (y : Char) (r : List Char)
    (hy : p y = false) :
    ∀ xs : List Char, (∀ c ∈ xs, p c = true) → ((xs ++ y :: r).takeWhile p) = xs
  | [], _ => by simp [List.takeWhile_cons, hy]
  | c :: cs, h => by
    have hc := h c (List.mem_cons_self c cs)
    simp [List.takeWhile_cons, hc,
      takeWhile_append_cons p y r hy cs (fun d hd => h d (List.mem_cons_of_mem _ hd))]

theorem dropLit_append : ∀ (p r : List Char), dropLit p (p ++ r) = some r
  | [], r => rfl
  | c :: cs, r => by simp [dropLit, dropLit_append cs r]

theorem isEmpty_false_of_ne_nil {l : List Char} (h : l ≠ []) : l.isEmpty = false := by
  cases l with
  | nil => exact absurd rfl h
  | cons c cs => rfl

theorem matcher1_full (ds title : List Char) (hds : ds ≠ [])
    (hdsdig : ∀ c ∈ ds, c.isDigit = true) (htitle : title ≠ [])
    (htn : ∀ c ∈ title, c ≠ '\n') :
    matcher1 ("## Day ".data ++ (ds ++ (": ".data ++ title)))
      = some (("## Day ".data ++ (ds ++ (": ".data ++ title))).length,
          dayHeaderFragment ds title) := by
  have h1 : (ds ++ (": ".data ++ title)).takeWhile Char.isDigit = ds :=
    takeWhile_append_cons _ ':' (' ' :: title) (by decide) ds hdsdig
  have h2 : title.takeWhile (fun c => c ≠ '\n') = title :=
    takeWhile_all _ title (fun c hc => by simpa using htn c hc)
  simp only [matcher1, dropLit_append, h1, isEmpty_false_of_ne_nil hds,
    Bool.false_eq_true, if_false, List.drop_left, dropLit_append, h2,
    isEmpty_false_of_ne_nil htitle]
  simp [List.length_append]
  omega

theorem matcher2_full (d1 d2 e1 e2 : Char) (text : List Char)
    (hd1 : d1.isDigit = true) (hd2 : d2.isDigit = true)
    (he1 : e1.isDigit = true) (he2 : e2.isDigit = true)
    (htext : text ≠ []) (htn : ∀ c ∈ text, c ≠ '\n') :
    matcher2 (d1 :: d2 :: ':' :: e1 :: e2 :: ' ' :: text)
      = some ((d1 :: d2 :: ':' :: e1 :: e2 :: ' ' :: text).length,
          timeEntryFragment [d1, d2, ':', e1, e2] text) := by
  have h2 : text.takeWhile (fun c => c ≠ '\n') = text :=
    takeWhile_all _ text (fun c hc => by simpa using htn c hc)
  simp only [matcher2, timeMatch, hd1, hd2, he1, he2, Bool.and_self, if_true, h2,
    isEmpty_false_of_ne_nil htext]
  simp
  omega

theorem matcher3_full (inner : List Char) (hinner : inner ≠ [])
    (hstar : ∀ c ∈ inner, c ≠ '*') :
    matcher3 ('*' :: '*' :: (inner ++ "**".data))
      = some (('*' :: '*' :: (inner ++ "**".data)).length, locationFragment inner) := by
  have h1 : (inner ++ "**".data).takeWhile (fun c => c ≠ '*') = inner :=
    takeWhile_append_cons _ '*' ['*'] (by decide) inner
      (fun c hc => by simpa using hstar c hc)
  simp only [matcher3, h1, isEmpty_false_of_ne_nil hinner, Bool.false_eq_true, if_false,
    List.drop_left]
  simp [List.length_append]
  omega

theorem matcher4_full (inner : List Char) (hinner : inner ≠ [])
    (hparen : ∀ c ∈ inner, c ≠ ')') :
    matcher4 ('(' :: (inner ++ ")".data))
      = some (('(' :: (inner ++ ")".data)).length, durationFragment inner) := by
  have h1 : (inner ++ ")".data).takeWhile (fun c => c ≠ ')') = inner :=
    takeWhile_append_cons _ ')' [] (by decide) inner
      (fun c hc => by simpa using hparen c hc)
  simp only [matcher4, h1, isEmpty_false_of_ne_nil hinner, Bool.false_eq_true, if_false,
    List.drop_left]
  simp [List.length_append]
  omega

theorem matcher5_full (text : List Char) (htext : text ≠ [])
    (htn : ∀ c ∈ text, c ≠ '\n') :
    matcher5 ('-' :: ' ' :: text)
      = some (('-' :: ' ' :: text).length, activityItemFragment text) := by
  have h2 : text.takeWhile (fun c => c ≠ '\n') = text :=
    takeWhile_all _ text (fun c hc => by simpa using htn c hc)
  simp only [matcher5, h2, isEmpty_false_of_ne_nil htext]
  simp
  omega

set_option maxRecDepth 16384 in
/-- C9: `formatPlanContent` performs the five pattern substitutions of
part_001 lines 19-41 and nothing else.  In order: (i) a string in which none
of the five patterns occurs anywhere is returned unchanged; (ii) a
`## Day N: Title` input (digits `ds`, newline-free `title`) becomes exactly
the styled day-header fragment, provided the later passes find nothing to
rewrite inside the produced fragment; (iii) a `HH:MM text` input becomes the
time-entry fragment under the analogous conditions; (iv) a `**...**` input
becomes the location fragment; (v) a `(...)` input becomes the duration
fragment; (vi) a `- text` input becomes the activity-item fragment; (vii) on
a composite line the time entry, the location and the duration are all
substituted, nested in source order; and (viii) when formatting (or, in the
chat.js variant, markdown parsing) throws, the raw text is displayed instead
of any generated markup. -/
theorem C9_formatPlanContent_pattern_substitution :
    (∀ s : String, noFormatMatches s = true → formatPlanContent s = s)
    ∧ (∀ ds title : List Char, ds ≠ [] → (∀ c ∈ ds, c.isDigit = true) →
        title ≠ [] → (∀ c ∈ title, c ≠ '\n') →
        hasMatchIn matcher2 (dayHeaderFragment ds title) = false →
        hasMatchIn matcher3 (dayHeaderFragment ds title) = false →
        hasMatchIn matcher4 (dayHeaderFragment ds title) = false →
        hasMatchIn matcher5 (dayHeaderFragment ds title) = false →
        formatPlanContent ⟨"## Day ".data ++ (ds ++ (": ".data ++ title))⟩
          = ⟨dayHeaderFragment ds title⟩)
    ∧ (∀ (d1 d2 e1 e2 : Char) (text : List Char),
        d1.isDigit = true → d2.isDigit = true → e1.isDigit = true → e2.isDigit = true →
        text ≠ [] → (∀ c ∈ text, c ≠ '\n') →
        hasMatchIn matcher1 (d1 :: d2 :: ':' :: e1 :: e2 :: ' ' :: text) = false →
        hasMatchIn matcher3 (timeEntryFragment [d1, d2, ':', e1, e2] text) = false →
        hasMatchIn matcher4 (timeEntryFragment [d1, d2, ':', e1, e2] text) = false →
        hasMatchIn matcher5 (timeEntryFragment [d1, d2, ':', e1, e2] text) = false →
        formatPlanContent ⟨d1 :: d2 :: ':' :: e1 :: e2 :: ' ' :: text⟩
          = ⟨timeEntryFragment [d1, d2, ':', e1, e2] text⟩)
    ∧ (∀ inner : List Char, inner ≠ [] → (∀ c ∈ inner, c ≠ '*') →
        hasMatchIn matcher1 ('*' :: '*' :: (inner ++ "**".data)) = false →
        hasMatchIn matcher2 ('*' :: '*' :: (inner ++ "**".data)) = false →
        hasMatchIn matcher4 (locationFragment inner) = false →
        hasMatchIn matcher5 (locationFragment inner) = false →
        formatPlanContent ⟨'*' :: '*' :: (inner ++ "**".data)⟩ = ⟨locationFragment inner⟩)
    ∧ (∀ inner : List Char, inner ≠ [] → (∀ c ∈ inner, c ≠ ')') →
        hasMatchIn matcher1 ('(' :: (inner ++ ")".data)) = false →
        hasMatchIn matcher2 ('(' :: (inner ++ ")".data)) = false →
        hasMatchIn matcher3 ('(' :: (inner ++ ")".data)) = false →
        hasMatchIn matcher5 (durationFragment inner) = false →
        formatPlanContent ⟨'(' :: (inner ++ ")".data)⟩ = ⟨durationFragment inner⟩)
    ∧ (∀ text : List Char, text ≠ [] → (∀ c ∈ text, c ≠ '\n') →
        hasMatchIn matcher1 ('-' :: ' ' :: text) = false →
        hasMatchIn matcher2 ('-' :: ' ' :: text) = false →
        hasMatchIn matcher3 ('-' :: ' ' :: text) = false →
        hasMatchIn matcher4 ('-' :: ' ' :: text) = false →
        formatPlanContent ⟨'-' :: ' ' :: text⟩ = ⟨activityItemFragment text⟩)
    ∧ formatPlanContent "09:00 Breakfast at **Tsukiji Market** (1 hour)"
      = "<div class=\"time-entry mb-2\"><span class=\"time\">09:00</span> Breakfast at <span class=\"location\"><i data-feather=\"map-pin\"></i> Tsukiji Market</span> <span class=\"duration\"><i data-feather=\"clock\"></i> 1 hour</span></div>"
    ∧ (∀ content : String, renderOptionContent true content = .rawText content)
    ∧ (∀ content : String,
        renderOptionContent false content = .html (formatPlanContent content)) := by
  refine ⟨?_, ?_, ?_, ?_, ?_, ?_, by decide, fun content => rfl, fun content => rfl⟩
  · intro s h
    simp only [noFormatMatches, Bool.not_eq_true', Bool.or_eq_false_iff] at h
    obtain ⟨⟨⟨⟨h1, h2⟩, h3⟩, h4⟩, h5⟩ := h
    unfold formatPlanContent
    rw [replaceAll_eq_self _ _ h1, replaceAll_eq_self _ _ h2, replaceAll_eq_self _ _ h3,
      replaceAll_eq_self _ _ h4, replaceAll_eq_self _ _ h5]
  · intro ds title hds hdig ht htn h2 h3 h4 h5
    unfold formatPlanContent
    rw [replaceAll_total_match matcher1 ("## Day ".data ++ (ds ++ (": ".data ++ title)))
        (dayHeaderFragment ds title)
        (fun hcontra => absurd (List.append_eq_nil.mp hcontra).1 (by decide))
        (matcher1_full ds title hds hdig ht htn),
      replaceAll_eq_self matcher2 _ h2, replaceAll_eq_self matcher3 _ h3,
      replaceAll_eq_self matcher4 _ h4, replaceAll_eq_self matcher5 _ h5]
  · intro d1 d2 e1 e2 text hd1 hd2 he1 he2 ht htn h1 h3 h4 h5
    unfold formatPlanContent
    rw [replaceAll_eq_self matcher1 _ h1,
      replaceAll_total_match matcher2 (d1 :: d2 :: ':' :: e1 :: e2 :: ' ' :: text)
        (timeEntryFragment [d1, d2, ':', e1, e2] text) (List.cons_ne_nil _ _)
        (matcher2_full d1 d2 e1 e2 text hd1 hd2 he1 he2 ht htn),
      replaceAll_eq_self matcher3 _ h3, replaceAll_eq_self matcher4 _ h4,
      replaceAll_eq_self matcher5 _ h5]
  · intro inner hinner hstar h1 h2 h4 h5
    unfold formatPlanContent
    rw [replaceAll_eq_self matcher1 _ h1, replaceAll_eq_self matcher2 _ h2,
      replaceAll_total_match matcher3 ('*' :: '*' :: (inner ++ "**".data))
        (locationFragment inner) (List.cons_ne_nil _ _)
        (matcher3_full inner hinner hstar),
      replaceAll_eq_self matcher4 _ h4, replaceAll_eq_self matcher5 _ h5]
  · intro inner hinner hparen h1 h2 h3 h5
    unfold formatPlanContent
    rw [replaceAll_eq_self matcher1 _ h1, replaceAll_eq_self matcher2 _ h2,
      replaceAll_eq_self matcher3 _ h3,
      replaceAll_total_match matcher4 ('(' :: (inner ++ ")".data))
        (durationFragment inner) (List.cons_ne_nil _ _)
        (matcher4_full inner hinner hparen),
      replaceAll_eq_self matcher5 _ h5]
  · intro text htext htn h1 h2 h3 h4
    unfold formatPlanContent
    rw [replaceAll_eq_self matcher1 _ h1, replaceAll_eq_self matcher2 _ h2,
      replaceAll_eq_self matcher3 _ h3, replaceAll_eq_self matcher4 _ h4,
      replaceAll_total_match matcher5 ('-' :: ' ' :: text)
        (activityItemFragment text) (List.cons_ne_nil _ _)
        (matcher5_full text htext htn)]

set_option maxRecDepth 16384 in
/-- Witness for C9: the pattern-free identity, and each per-pattern mapping
at a concrete instance discharging the side conditions. -/
theorem C9_formatPlanContent_pattern_substitution_witness :
    noFormatMatches "Just a plain sentence" = true
    ∧ formatPlanContent "Just a plain sentence" = "Just a plain sentence"
    ∧ formatPlanContent ⟨"## Day ".data ++ (['1'] ++ (": ".data ++ "Tokyo".data))⟩
      = ⟨dayHeaderFragment ['1'] "Tokyo".data⟩
    ∧ formatPlanContent ⟨'1' :: '0' :: ':' :: '3' :: '0' :: ' ' :: "Visit temple".data⟩
      = ⟨timeEntryFragment ['1', '0', ':', '3', '0'] "Visit temple".data⟩
    ∧ formatPlanContent ⟨'*' :: '*' :: ("Kyoto Station".data ++ "**".data)⟩
      = ⟨locationFragment "Kyoto Station".data⟩
    ∧ formatPlanContent ⟨'(' :: ("2 hours".data ++ ")".data)⟩
      = ⟨durationFragment "2 hours".data⟩
    ∧ formatPlanContent ⟨'-' :: ' ' :: "Pack comfortable shoes".data⟩
      = ⟨activityItemFragment "Pack comfortable shoes".data⟩ :=
  ⟨by decide,
   C9_formatPlanContent_pattern_substitution.1 "Just a plain sentence" (by decide),
   C9_formatPlanContent_pattern_substitution.2.1 ['1'] "Tokyo".data (by decide)
     (by decide) (by decide) (by decide) (by decide) (by decide) (by decide) (by decide),
   C9_formatPlanContent_pattern_substitution.2.2.1 '1' '0' '3' '0' "Visit temple".data
     (by decide) (by decide) (by decide) (by decide) (by decide) (by decide)
     (by decide) (by decide) (by decide) (by decide),
   C9_formatPlanContent_pattern_substitution.2.2.2.1 "Kyoto Station".data (by decide)
     (by decide) (by decide) (by decide) (by decide) (by decide),
   C9_formatPlanContent_pattern_substitution.2.2.2.2.1 "2 hours".data (by decide)
     (by decide) (by decide) (by decide) (by decide) (by decide),
   C9_formatPlanContent_pattern_substitution.2.2.2.2.2.1 "Pack comfortable shoes".data
     (by decide) (by decide) (by decide) (by decide) (by decide) (by decide)⟩

/-- C6: the claim is the spec's intent and part_001 implements it, but the
part_004 load path the claim also cites is broken: at the failing input — a
page load holding the pending payload {Day 1: Tokyo, 2025-06-01} with the
status check reporting authenticated and no `#confirmSchedule` element in
the document (none exists on a fresh load) — the payload is consumed, yet
`handleScheduleConfirmation` throws on the absent button before the event
fetch, appends the scheduling error message, and issues zero POSTs to
`/api/calendar/event`, where the claim requires exactly one. -/
theorem C6_part4_load_reattempt_issues_no_event_post :
    (windowLoadHandlerP4 false "Cannot set properties of null" (.data true)
        (.data true) (.data "success" none)
        { nodes := [], sessionPending := some ⟨"Day 1: Tokyo", "2025-06-01"⟩,
          redirect := none, eventPosts := [], confirmDisabled := false,
          confirmLabel := addToCalendarLabel, modalOpen := false }).eventPosts = []
    ∧ (windowLoadHandlerP4 false "Cannot set properties of null" (.data true)
        (.data true) (.data "success" none)
        { nodes := [], sessionPending := some ⟨"Day 1: Tokyo", "2025-06-01"⟩,
          redirect := none, eventPosts := [], confirmDisabled := false,
          confirmLabel := addToCalendarLabel, modalOpen := false }).sessionPending = none
    ∧ DomNode.msg (.text ("Error scheduling itinerary: " ++ "Cannot set properties of null")
          false true)
      ∈ (windowLoadHandlerP4 false "Cannot set properties of null" (.data true)
          (.data true) (.data "success" none)
          { nodes := [], sessionPending := some ⟨"Day 1: Tokyo", "2025-06-01"⟩,
            redirect := none, eventPosts := [], confirmDisabled := false,
            confirmLabel := addToCalendarLabel, modalOpen := false }).nodes := by
  decide

end TravelAgent
